import Mathlib

/-!
Verification of the HeritageNet pipeline bridge.

Shallow embedding of `src/telegram_bridge.py` (the orchestration function
`process_telegram_image`) and of the graph-store commit used by
`src/main.py`.  External collaborators (the OCR/graph pipeline, the
pattern-discovery store, the per-question verification service, the file
system) are modelled as oracles carried in an `Env` record; the bridge's
control flow over those oracles is translated statement by statement.
-/

/-- A discovered pattern, as the dictionaries consumed at
`telegram_bridge.py:111`: a path length, a support count and an optional
natural-language question (`p.get('question')` may be absent or empty). -/
structure Pattern where
  path_length : Nat
  support_count : Nat
  question : Option String
  deriving Repr, DecidableEq

/-- Embedding of the Python truthiness test `p.get('question')` at
`telegram_bridge.py:111`: the question passes when the key is present and
the string is non-empty. -/
def questionOf (p : Pattern) : Option String :=
  match p.question with
  | some q => if q = "" then none else some q
  | none => none

/-- Embedding of `questions = [p['question'] for p in patterns if p.get('question')]`
(`telegram_bridge.py:111`). -/
def extractQuestions (patterns : List Pattern) : List String :=
  patterns.filterMap questionOf

/-- Spec-side rendering of the same list, written from the spec's words:
"the question list handed to the verification stage contains exactly the
non-empty question values of the discovered patterns, in pattern order". -/
def nonEmptyQuestionsSpec (patterns : List Pattern) : List String :=
  (patterns.filterMap Pattern.question).filter (fun q => q ≠ "")

/-- Outcome for one verified question, after §3 of the spec
(`VerificationResult`): the question text, an optional verdict, the
evidence list, and an error present only when the call itself failed. -/
structure VerificationResult where
  question : String
  verdict : Option String
  evidence : List String
  error : Option String
  deriving Repr, DecidableEq

/-- Modelled from the spec: `HypothesisVerifier.verify_questions_sync`
(`telegram_bridge.py:129`) is not under `src/`; §4.4 specifies one
independent verification per question.  The per-question collaborator
either yields a verdict with evidence or fails with a message; a failure
becomes a result whose `error` field is set, never an aborted batch. -/
def verifyOne (oracle : String → Except String (String × List String))
    (q : String) : VerificationResult :=
  match oracle q with
  | .ok (v, ev) => ⟨q, some v, ev, none⟩
  | .error e => ⟨q, none, [], some e⟩

/-- Modelled from the spec: the batch verifier of §4.4 — "one result per
input question, order-preserving", a single question's failure captured
inline in its own result. -/
def verify_questions_sync (oracle : String → Except String (String × List String))
    (qs : List String) : List VerificationResult :=
  qs.map (verifyOne oracle)

/-- A node proposed for the graph store.  Per §4.2 its identity is derived
deterministically from stable identifying properties (normalized name and
type), which the embedding captures by decidable equality on exactly those
fields. -/
structure GNode where
  typ : String
  name : String
  deriving Repr, DecidableEq

/-- A typed, directed relationship between two nodes. -/
structure GRel where
  src : GNode
  relType : String
  dst : GNode
  deriving Repr, DecidableEq

/-- The GraphElement set committed in one call: nodes plus relationships. -/
structure GraphElements where
  nodes : List GNode
  rels : List GRel
  deriving Repr, DecidableEq

/-- The queryable state of the graph store. -/
structure GraphDB where
  nodes : List GNode
  rels : List GRel
  deriving Repr, DecidableEq

/-- Merge-insert: an element already present (by its deterministic
identity, i.e. decidable equality on its identifying fields) is not added
again. -/
def mergeInsert {α : Type _} [DecidableEq α] (g : List α) (a : α) : List α :=
  if a ∈ g then g else g ++ [a]

/-- Modelled from the spec: `Neo4jGraph.add_graph_elements`
(`src/main.py:38`) is library code not under `src/`; §4.2 specifies
commitment with merge semantics — node identity from stable identifying
properties, so a re-committed element merges instead of duplicating. -/
def add_graph_elements (g : GraphDB) (es : GraphElements) : GraphDB :=
  { nodes := es.nodes.foldl mergeInsert g.nodes
    rels := es.rels.foldl mergeInsert g.rels }

/-- Wall-clock instant at the start of a run, split into the whole-second
count and the sub-second remainder.  `strftime("%Y%m%d_%H%M%S")`
(`telegram_bridge.py:34`) renders only the whole seconds. -/
structure Timestamp where
  second : Nat
  micro : Nat
  deriving Repr, DecidableEq

/-- Embedding of `datetime.now().strftime("%Y%m%d_%H%M%S")`
(`telegram_bridge.py:34`): the rendering is a function of the whole-second
count alone (the calendar digits are abstracted as an injective rendering
of that count; the sub-second part is discarded, which is the one property
the claims use). -/
def strftimeYmdHMS (t : Timestamp) : String :=
  toString t.second

/-- Embedding of `element_id = f"telegram_{user_id}_{timestamp}"`
(`telegram_bridge.py:35`). -/
def mkElementId (user_id : String) (t : Timestamp) : String :=
  "telegram_" ++ user_id ++ "_" ++ strftimeYmdHMS t

/-- The dictionary returned by `process_telegram_image`, one optional field
per key the Python dict may carry; `none` means the key is absent. -/
structure TelegramReport where
  success : Bool
  error : Option String
  hypotheses : Option (List String)
  verification_results : Option (List VerificationResult)
  ocr_text : Option String
  element_id : Option String
  deriving Repr, DecidableEq

/-- Observable calls made to external collaborators during a run, in
program order. -/
inductive Event where
  | pipelineCall
  | discoverCall
  | closeCall
  | verifyCall
  deriving Repr, DecidableEq

/-- The external collaborators of one run, as oracles: the wall clock, the
output-directory creation (`mkdir`, `telegram_bridge.py:40`, outside the
`try` block), the OCR+graph pipeline (`process_document`), pattern
discovery (`discover_patterns`, which may raise), and the per-question
verification service. -/
structure Env where
  now : Timestamp
  mkdirResult : Except String Unit
  pipeline : String → Except String String
  discover : Nat → Nat → Except String (List Pattern)
  verifyOracle : String → Except String (String × List String)

/-- Body of the `try` block of `process_telegram_image`
(`telegram_bridge.py:56`-`147`), returning the report together with the
trace of collaborator calls.  `discover` is invoked with `max_length=3`
and `max_patterns_per_length=5` (`telegram_bridge.py:104`-`107`); `close`
runs only after `discover_patterns` returns (`telegram_bridge.py:108`). -/
def tryBody (env : Env) (image_path : String) (elt_id : String) :
    TelegramReport × List Event :=
  match env.pipeline image_path with
  | .error e => (⟨false, some e, none, none, none, none⟩, [.pipelineCall])
  | .ok extracted_text =>
    match env.discover 3 5 with
    | .error e =>
        (⟨false, some e, none, none, none, none⟩, [.pipelineCall, .discoverCall])
    | .ok patterns =>
      let questions := extractQuestions patterns
      if questions = [] then
        (⟨false, some "No hypotheses generated from the image", none, none,
            some extracted_text, none⟩,
         [.pipelineCall, .discoverCall, .closeCall])
      else
        let results := verify_questions_sync env.verifyOracle questions
        (⟨true, none, some questions, some results, some extracted_text,
            some elt_id⟩,
         [.pipelineCall, .discoverCall, .closeCall, .verifyCall])

/-- Embedding of `process_telegram_image` (`telegram_bridge.py:23`-`157`).
`Except.error` is an exception propagating to the caller: the directory
creation at `telegram_bridge.py:40` precedes the `try` block, so its
failure is not caught; every collaborator failure inside the `try` block
is converted into a failure report by the `except` clause
(`telegram_bridge.py:149`-`157`). -/
def process_telegram_image (env : Env) (image_path user_id : String) :
    Except String (TelegramReport × List Event) :=
  let elt_id := mkElementId user_id env.now
  match env.mkdirResult with
  | .error e => .error e
  | .ok _ => .ok (tryBody env image_path elt_id)

/-- A verification collaborator that answers every question. -/
def okOracle : String → Except String (String × List String) :=
  fun q => .ok ("supported", ["ref:" ++ q])

/-- Concrete run in which pattern discovery yields no patterns. -/
def envZero : Env :=
  { now := ⟨100, 0⟩
    mkdirResult := .ok ()
    pipeline := fun _ => .ok "some text"
    discover := fun _ _ => .ok []
    verifyOracle := okOracle }

/-- Concrete run in which the OCR+graph pipeline call raises. -/
def envGraphFail : Env :=
  { now := ⟨100, 0⟩
    mkdirResult := .ok ()
    pipeline := fun _ => .error "boom"
    discover := fun _ _ => .ok []
    verifyOracle := okOracle }

/-- Concrete run in which `discover_patterns` raises. -/
def envDiscoverFail : Env :=
  { now := ⟨100, 0⟩
    mkdirResult := .ok ()
    pipeline := fun _ => .ok "text"
    discover := fun _ _ => .error "store unreachable"
    verifyOracle := okOracle }

/-- Concrete run in which the output-directory creation, which precedes
the `try` block, fails. -/
def envMkdirFail : Env :=
  { now := ⟨100, 0⟩
    mkdirResult := .error "output dir exists as a file"
    pipeline := fun _ => .ok "text"
    discover := fun _ _ => .ok []
    verifyOracle := okOracle }

/-- Concrete fully successful run: one pattern with a rendered question. -/
def envOk : Env :=
  { now := ⟨100, 0⟩
    mkdirResult := .ok ()
    pipeline := fun _ => .ok "text"
    discover := fun _ _ => .ok [⟨2, 3, some "Is fever linked to cough?"⟩]
    verifyOracle := okOracle }

/-! Helper lemmas about merge-insertion, shared by the idempotence proof. -/

/-- Merge-insertion keeps every element already in the graph. -/
theorem mem_mergeInsert_of_mem {α : Type _} [DecidableEq α] (g : List α) (e a : α)
    (h : a ∈ g) : a ∈ mergeInsert g e := by
  unfold mergeInsert
  split
  · exact h
  · exact List.mem_append_left _ h

/-- The inserted element is in the merged graph. -/
theorem mem_mergeInsert_self {α : Type _} [DecidableEq α] (g : List α) (a : α) :
    a ∈ mergeInsert g a := by
  unfold mergeInsert
  split
  · assumption
  · exact List.mem_append_right _ (List.mem_singleton_self a)

/-- A whole committed batch never removes an element already in the graph. -/
theorem mem_foldl_mergeInsert {α : Type _} [DecidableEq α] (es : List α) :
    ∀ g : List α, ∀ a ∈ g, a ∈ es.foldl mergeInsert g := by
  induction es with
  | nil => intro g a h; exact h
  | cons e es ih =>
    intro g a h
    exact ih (mergeInsert g e) a (mem_mergeInsert_of_mem g e a h)

/-- Every committed element is in the resulting graph. -/
theorem mem_of_committed {α : Type _} [DecidableEq α] (es : List α) :
    ∀ g : List α, ∀ a ∈ es, a ∈ es.foldl mergeInsert g := by
  induction es with
  | nil => intro g a h; cases h
  | cons e es ih =>
    intro g a h
    rcases List.mem_cons.mp h with heq | h
    · rw [heq]
      exact mem_foldl_mergeInsert es (mergeInsert g e) e (mem_mergeInsert_self g e)
    · exact ih _ a h

/-- Committing elements that are all already present changes nothing. -/
theorem foldl_mergeInsert_of_sub {α : Type _} [DecidableEq α] (es : List α) :
    ∀ g : List α, (∀ a ∈ es, a ∈ g) → es.foldl mergeInsert g = g := by
  induction es with
  | nil => intro g _; rfl
  | cons e es ih =>
    intro g h
    have he : e ∈ g := h e (List.mem_cons_self e es)
    have hm : mergeInsert g e = g := by unfold mergeInsert; rw [if_pos he]
    rw [List.foldl_cons, hm]
    exact ih g (fun a ha => h a (List.mem_cons_of_mem e ha))

/-- Auxiliary: the question field of a single verification result is the
question that was asked, on both the success and the failure branch. -/
theorem verifyOne_question (oracle : String → Except String (String × List String))
    (q : String) : (verifyOne oracle q).question = q := by
  unfold verifyOne
  cases h : oracle q with
  | ok p => obtain ⟨v, ev⟩ := p; rfl
  | error e => rfl

/-- C8: committing the same GraphElement set twice to the graph store
yields the same queryable graph as committing it once — no duplicate
nodes or relationships, because identity is derived deterministically
from the identifying fields, not from run-local counters. -/
theorem c8_add_graph_elements_idempotent (g : GraphDB) (es : GraphElements) :
    add_graph_elements (add_graph_elements g es) es = add_graph_elements g es := by
  unfold add_graph_elements
  congr 1
  · exact foldl_mergeInsert_of_sub es.nodes _
      (fun a ha => mem_of_committed es.nodes g.nodes a ha)
  · exact foldl_mergeInsert_of_sub es.rels _
      (fun a ha => mem_of_committed es.rels g.rels a ha)

/-- C5: for any input list of N questions, the verification stage returns
exactly N results carrying the input questions in the same order, for
every behaviour of the per-question collaborator — in particular when
individual verifications fail independently. -/
theorem c5_verify_preserves_count_and_order
    (oracle : String → Except String (String × List String)) (qs : List String) :
    (verify_questions_sync oracle qs).length = qs.length ∧
    (verify_questions_sync oracle qs).map VerificationResult.question = qs := by
  constructor
  · simp [verify_questions_sync]
  · unfold verify_questions_sync
    rw [List.map_map]
    have hq : (VerificationResult.question ∘ verifyOne oracle) = id := by
      funext q
      exact verifyOne_question oracle q
    rw [hq, List.map_id]

/-- C7: the question list handed to verification is exactly the list of
non-empty question values of the discovered patterns, in pattern order —
patterns whose question is absent or empty are filtered out. -/
theorem c7_questions_are_nonempty_pattern_questions (patterns : List Pattern) :
    extractQuestions patterns = nonEmptyQuestionsSpec patterns := by
  induction patterns with
  | nil => rfl
  | cons p ps ih =>
    unfold extractQuestions nonEmptyQuestionsSpec at ih ⊢
    cases hq : p.question with
    | none =>
      simpa [List.filterMap_cons, questionOf, hq] using ih
    | some q =>
      by_cases hqe : q = ""
      · simpa [List.filterMap_cons, questionOf, hq, hqe] using ih
      · simpa [List.filterMap_cons, questionOf, hq, hqe, List.filter_cons] using ih

/-- C10: the run identifier is the string `telegram_` + user id + `_` +
the start time rendered at second resolution; two distinct start instants
within the same second therefore produce identical identifiers, so run
identifiers are not globally unique. -/
theorem c10_run_id_format_and_collision :
    (∀ u t, mkElementId u t = "telegram_" ++ u ++ "_" ++ strftimeYmdHMS t) ∧
    ∃ t1 t2 : Timestamp, t1 ≠ t2 ∧ t1.second = t2.second ∧
      ∀ u, mkElementId u t1 = mkElementId u t2 := by
  refine ⟨fun u t => rfl, ⟨100, 0⟩, ⟨100, 5⟩, by decide, rfl, fun u => rfl⟩

/-- Auxiliary: the batch verifier returns one result per question (shared
by several report-shape proofs). -/
theorem verify_questions_sync_length
    (oracle : String → Except String (String × List String)) (qs : List String) :
    (verify_questions_sync oracle qs).length = qs.length := by
  simp [verify_questions_sync]

/-- The collaborator-call trace of the fully successful concrete run. -/
def evsOk : List Event :=
  [Event.pipelineCall, Event.discoverCall, Event.closeCall, Event.verifyCall]

/-- The report of the fully successful concrete run `envOk`. -/
def rOk : TelegramReport :=
  ⟨true, none, some ["Is fever linked to cough?"],
   some [⟨"Is fever linked to cough?", some "supported",
          ["ref:Is fever linked to cough?"], none⟩],
   some "text", some "telegram_u_100"⟩

/-- Sanity: the successful concrete run computes exactly `rOk, evsOk`. -/
theorem envOk_run_eq :
    process_telegram_image envOk "img.jpg" "u" = .ok (rOk, evsOk) := rfl

/-- C1 (amended): when the rendered question list is empty the run returns
early with the failure-shaped report — `success = false` carrying the
explicit marker "No hypotheses generated from the image" together with the
extracted text — and the verification stage is never invoked. -/
theorem c1_no_hypotheses_early_exit (env : Env) (i u text : String) (ps : List Pattern)
    (hm : env.mkdirResult = .ok ()) (hp : env.pipeline i = .ok text)
    (hd : env.discover 3 5 = .ok ps) (hq : extractQuestions ps = []) :
    process_telegram_image env i u =
      .ok (⟨false, some "No hypotheses generated from the image", none, none,
            some text, none⟩,
           [Event.pipelineCall, Event.discoverCall, Event.closeCall]) ∧
    Event.verifyCall ∉
      ([Event.pipelineCall, Event.discoverCall, Event.closeCall] : List Event) := by
  refine ⟨?_, by decide⟩
  simp [process_telegram_image, tryBody, hm, hp, hd, hq]

/-- C1 witness: the early exit at the concrete zero-pattern run. -/
theorem c1_no_hypotheses_early_exit_witness :
    process_telegram_image envZero "img.jpg" "u" =
      .ok (⟨false, some "No hypotheses generated from the image", none, none,
            some "some text", none⟩,
           [Event.pipelineCall, Event.discoverCall, Event.closeCall]) ∧
    Event.verifyCall ∉
      ([Event.pipelineCall, Event.discoverCall, Event.closeCall] : List Event) :=
  c1_no_hypotheses_early_exit envZero "img.jpg" "u" "some text" [] rfl rfl rfl rfl

/-- C1 counterexample: the zero-hypothesis run's status field is
`success = false` — the very value a fatally failed run carries — so the
code does not end such a run in a `completed` status distinct from
`failed`; only the error string and the `ocr_text` field differ. -/
theorem c1_cex_zero_hypotheses_shares_failed_status :
    (process_telegram_image envZero "img.jpg" "u").toOption.map
        (fun p => p.1.success) = some false ∧
    (process_telegram_image envGraphFail "img.jpg" "u").toOption.map
        (fun p => p.1.success) = some false :=
  ⟨rfl, rfl⟩

/-- C4 (amended): when the OCR+graph pipeline call raises, the run returns
`success = false` carrying the raw exception message (no stage name is
attached to the report), and neither pattern discovery nor verification is
invoked afterwards. -/
theorem c4_graph_failure_short_circuit (env : Env) (i u e : String)
    (hm : env.mkdirResult = .ok ()) (hp : env.pipeline i = .error e) :
    process_telegram_image env i u =
      .ok (⟨false, some e, none, none, none, none⟩, [Event.pipelineCall]) ∧
    Event.discoverCall ∉ ([Event.pipelineCall] : List Event) ∧
    Event.verifyCall ∉ ([Event.pipelineCall] : List Event) := by
  refine ⟨?_, by decide, by decide⟩
  simp [process_telegram_image, tryBody, hm, hp]

/-- C4 witness: the short-circuit at the concrete failing-pipeline run. -/
theorem c4_graph_failure_short_circuit_witness :
    process_telegram_image envGraphFail "img.jpg" "u" =
      .ok (⟨false, some "boom", none, none, none, none⟩, [Event.pipelineCall]) ∧
    Event.discoverCall ∉ ([Event.pipelineCall] : List Event) ∧
    Event.verifyCall ∉ ([Event.pipelineCall] : List Event) :=
  c4_graph_failure_short_circuit envGraphFail "img.jpg" "u" "boom" rfl rfl

/-- C4 counterexample: at a concrete run whose pipeline stage raises with
message "boom", the resulting report carries only the raw message — its
error field is not the stage name `graphing` and every other field is
absent — so no report field carries the stage name the claim requires. -/
theorem c4_cex_no_stage_name_in_report :
    process_telegram_image envGraphFail "x.jpg" "v" =
      .ok (⟨false, some "boom", none, none, none, none⟩, [Event.pipelineCall]) ∧
    (⟨false, some "boom", none, none, none, none⟩ : TelegramReport).error ≠
      some "graphing" ∧
    (⟨false, some "boom", none, none, none, none⟩ : TelegramReport).hypotheses = none ∧
    (⟨false, some "boom", none, none, none, none⟩ : TelegramReport).ocr_text = none ∧
    (⟨false, some "boom", none, none, none, none⟩ : TelegramReport).element_id = none := by
  exact ⟨rfl, by decide, rfl, rfl, rfl⟩

/-- C3 (amended): every collaborator failure inside the `try` block is
caught and converted into a report, so whenever the pre-`try` directory
creation succeeds the caller receives a report; but a failure of that
directory creation, which precedes the `try` block, propagates to the
caller as an unhandled exception. -/
theorem c3_try_block_errors_caught (env : Env) (i u : String) :
    (∀ x, env.mkdirResult = .ok x →
        ∃ r evs, process_telegram_image env i u = .ok (r, evs)) ∧
    (∀ e, env.mkdirResult = .error e →
        process_telegram_image env i u = .error e) := by
  constructor
  · intro x hm
    refine ⟨(tryBody env i (mkElementId u env.now)).1,
            (tryBody env i (mkElementId u env.now)).2, ?_⟩
    simp [process_telegram_image, hm]
  · intro e hm
    simp [process_telegram_image, hm]

/-- C3 witness: a concrete run returning a report, and a concrete run in
which the pre-`try` directory-creation failure propagates. -/
theorem c3_try_block_errors_caught_witness :
    (∃ r evs, process_telegram_image envOk "img.jpg" "u" = .ok (r, evs)) ∧
    process_telegram_image envMkdirFail "x.jpg" "v" =
      .error "output dir exists as a file" :=
  ⟨(c3_try_block_errors_caught envOk "img.jpg" "u").1 () rfl,
   (c3_try_block_errors_caught envMkdirFail "x.jpg" "v").2 _ rfl⟩

/-- C3 counterexample: at a concrete run whose output-directory creation
fails, `process_telegram_image` propagates the exception instead of
returning a report. -/
theorem c3_cex_mkdir_failure_propagates :
    process_telegram_image envMkdirFail "img.jpg" "u" =
      .error "output dir exists as a file" := rfl

/-- C9: every report returned by `process_telegram_image` carries the
boolean `success` key; the `error` key is present exactly when `success`
is false; and when `success` is true the report carries the `hypotheses`,
`verification_results`, `ocr_text` and `element_id` keys. -/
theorem c9_report_key_invariants (env : Env) (i u : String) (r : TelegramReport)
    (evs : List Event) (h : process_telegram_image env i u = .ok (r, evs)) :
    (r.error.isSome ↔ r.success = false) ∧
    (r.success = true →
      r.hypotheses.isSome ∧ r.verification_results.isSome ∧
      r.ocr_text.isSome ∧ r.element_id.isSome) := by
  cases hmk : env.mkdirResult with
  | error e => simp [process_telegram_image, hmk] at h
  | ok x =>
    cases hp : env.pipeline i with
    | error e =>
      simp [process_telegram_image, tryBody, hmk, hp] at h
      obtain ⟨rfl, rfl⟩ := h
      simp
    | ok text =>
      cases hd : env.discover 3 5 with
      | error e =>
        simp [process_telegram_image, tryBody, hmk, hp, hd] at h
        obtain ⟨rfl, rfl⟩ := h
        simp
      | ok ps =>
        by_cases hq : extractQuestions ps = []
        · simp [process_telegram_image, tryBody, hmk, hp, hd, hq] at h
          obtain ⟨rfl, rfl⟩ := h
          simp
        · simp [process_telegram_image, tryBody, hmk, hp, hd, hq] at h
          obtain ⟨rfl, rfl⟩ := h
          simp

/-- C9 witness: the invariants at the concrete fully successful run. -/
theorem c9_report_key_invariants_witness :
    (rOk.error.isSome ↔ rOk.success = false) ∧
    (rOk.success = true →
      rOk.hypotheses.isSome ∧ rOk.verification_results.isSome ∧
      rOk.ocr_text.isSome ∧ rOk.element_id.isSome) :=
  c9_report_key_invariants envOk "img.jpg" "u" rOk evsOk rfl

/-- C2 (amended): the report always carries the `success` flag and either
the full results or the captured failure reason — on success it carries
the run identifier, the extracted text, the question list and one
verification result per question; on the failure branches it carries the
error, and the run identifier is omitted (the exception branch also omits
the text and all counts). -/
theorem c2_report_shape (env : Env) (i u : String) (r : TelegramReport)
    (evs : List Event) (h : process_telegram_image env i u = .ok (r, evs)) :
    (∃ qs rs text, r = ⟨true, none, some qs, some rs, some text,
        some (mkElementId u env.now)⟩ ∧ rs.length = qs.length) ∨
    (r.success = false ∧ r.error.isSome ∧ r.element_id = none) := by
  cases hmk : env.mkdirResult with
  | error e => simp [process_telegram_image, hmk] at h
  | ok x =>
    cases hp : env.pipeline i with
    | error e =>
      simp [process_telegram_image, tryBody, hmk, hp] at h
      obtain ⟨rfl, rfl⟩ := h
      right
      simp
    | ok text =>
      cases hd : env.discover 3 5 with
      | error e =>
        simp [process_telegram_image, tryBody, hmk, hp, hd] at h
        obtain ⟨rfl, rfl⟩ := h
        right
        simp
      | ok ps =>
        by_cases hq : extractQuestions ps = []
        · simp [process_telegram_image, tryBody, hmk, hp, hd, hq] at h
          obtain ⟨rfl, rfl⟩ := h
          right
          simp
        · simp [process_telegram_image, tryBody, hmk, hp, hd, hq] at h
          obtain ⟨rfl, rfl⟩ := h
          left
          exact ⟨extractQuestions ps,
                 verify_questions_sync env.verifyOracle (extractQuestions ps),
                 text, rfl, verify_questions_sync_length _ _⟩

/-- C2 witness: the successful-branch shape at the concrete run. -/
theorem c2_report_shape_witness :
    (∃ qs rs text, rOk = ⟨true, none, some qs, some rs, some text,
        some (mkElementId "u" envOk.now)⟩ ∧ rs.length = qs.length) ∨
    (rOk.success = false ∧ rOk.error.isSome ∧ rOk.element_id = none) :=
  c2_report_shape envOk "img.jpg" "u" rOk evsOk rfl

/-- C2 counterexample: at a concrete run whose pipeline stage raises, the
returned report omits the run identifier, the extracted text (hence its
length) and all pattern/question/verification counts — contrary to the
claim that every branch carries them. -/
theorem c2_cex_failure_report_lacks_fields :
    process_telegram_image envGraphFail "y.jpg" "w" =
      .ok (⟨false, some "boom", none, none, none, none⟩, [Event.pipelineCall]) ∧
    (⟨false, some "boom", none, none, none, none⟩ : TelegramReport).element_id = none ∧
    (⟨false, some "boom", none, none, none, none⟩ : TelegramReport).ocr_text = none ∧
    (⟨false, some "boom", none, none, none, none⟩ : TelegramReport).hypotheses = none ∧
    (⟨false, some "boom", none, none, none, none⟩ :
        TelegramReport).verification_results = none :=
  ⟨rfl, rfl, rfl, rfl, rfl⟩

/-- C6 (amended): the bridge calls `close` on the pattern-discovery store
only after `discover_patterns` returns successfully; when
`discover_patterns` raises, `close` is never invoked, so the session is
not released on that failure path. -/
theorem c6_session_close_only_on_success (env : Env) (i u text : String)
    (hm : env.mkdirResult = .ok ()) (hp : env.pipeline i = .ok text) :
    (∀ ps, env.discover 3 5 = .ok ps →
        ∀ r evs, process_telegram_image env i u = .ok (r, evs) →
          Event.closeCall ∈ evs) ∧
    (∀ e, env.discover 3 5 = .error e →
        ∀ r evs, process_telegram_image env i u = .ok (r, evs) →
          Event.closeCall ∉ evs) := by
  constructor
  · intro ps hd r evs h
    by_cases hq : extractQuestions ps = [] <;>
      simp [process_telegram_image, tryBody, hm, hp, hd, hq] at h <;>
      obtain ⟨rfl, rfl⟩ := h <;> decide
  · intro e hd r evs h
    simp [process_telegram_image, tryBody, hm, hp, hd] at h
    obtain ⟨rfl, rfl⟩ := h
    decide

/-- C6 witness: `close` is in the successful run's trace, and absent from
the trace of the run whose `discover_patterns` raises. -/
theorem c6_session_close_only_on_success_witness :
    Event.closeCall ∈ evsOk ∧
    Event.closeCall ∉ ([Event.pipelineCall, Event.discoverCall] : List Event) :=
  ⟨(c6_session_close_only_on_success envOk "img.jpg" "u" "text" rfl rfl).1
      [⟨2, 3, some "Is fever linked to cough?"⟩] rfl rOk evsOk rfl,
   (c6_session_close_only_on_success envDiscoverFail "img.jpg" "u" "text" rfl rfl).2
      "store unreachable" rfl
      ⟨false, some "store unreachable", none, none, none, none⟩
      [Event.pipelineCall, Event.discoverCall] rfl⟩

/-- C6 counterexample: at a concrete run whose `discover_patterns` call
raises, the collaborator-call trace contains no `close` — the session
opened for pattern discovery is not released on that failure path. -/
theorem c6_cex_session_not_released_on_discover_raise :
    process_telegram_image envDiscoverFail "img.jpg" "u" =
      .ok (⟨false, some "store unreachable", none, none, none, none⟩,
           [Event.pipelineCall, Event.discoverCall]) ∧
    Event.closeCall ∉ ([Event.pipelineCall, Event.discoverCall] : List Event) :=
  ⟨rfl, by decide⟩
